import Mathlib

/-!
Shallow embedding of the charm-keystone-operator sources
(`src/charm.py`, `src/keystone_peers.py`, `src/utils/manager.py`,
`src/secrets/kubernetes.py`,
`lib/charms/sunbeam_identity_service_operator/v0/identity_service.py`).

Python dictionaries holding relation data are modelled as insertion-ordered
association lists from keys to values, where a value of `none` models a stored
Python `None` (indistinguishable from an absent key through `dict.get`).
Fallible Python code is modelled with `Except PyError`.
-/

namespace Keystone

/-- Python exceptions that the modelled code can raise. -/
inductive PyError where
  | typeError
  | jsonDecodeError
  | assertionError
  | attributeError
  deriving Repr, DecidableEq

/-- A Python value appearing as an argument of a modelled call. -/
inductive PyVal where
  | vbool (b : Bool)
  | vstr (s : String)
  | vnone
  deriving Repr, DecidableEq

/-- Python truthiness of a modelled value (`if x:`). -/
def PyVal.truthy : PyVal → Bool
  | .vbool b => b
  | .vstr s => !s.isEmpty
  | .vnone => false

/-- Coercion of a modelled value to a string, for binding `str` parameters. -/
def PyVal.asStr : PyVal → String
  | .vstr s => s
  | .vbool b => if b then "True" else "False"
  | .vnone => "None"

/-- A relation databag: an insertion-ordered dictionary from string keys to
values, where `none` models a stored Python `None`. -/
abbrev Bag := List (String × Option String)

/-- Dictionary assignment `bag[k] = v`: replaces the value in place when the
key exists, appends otherwise (Python dicts preserve insertion order). -/
def bagSet : Bag → String → Option String → Bag
  | [], k, v => [(k, v)]
  | kv :: rest, k, v =>
      if kv.1 = k then (k, v) :: rest else kv :: bagSet rest k v

/-- Dictionary access `bag.get(k)`: returns `none` both when the key is absent
and when the stored value is Python `None`, exactly as `dict.get`. -/
def pyGet : Bag → String → Option String
  | [], _ => none
  | kv :: rest, k => if kv.1 = k then kv.2 else pyGet rest k

theorem pyGet_bagSet (b : Bag) (k k' : String) (v : Option String) :
    pyGet (bagSet b k v) k' = if k = k' then v else pyGet b k' := by
  induction b with
  | nil => by_cases h : k = k' <;> simp [bagSet, pyGet, h]
  | cons kv rest ih =>
      by_cases h1 : kv.1 = k
      · by_cases h2 : k = k'
        · simp [bagSet, pyGet, h1, h2]
        · have h3 : ¬ kv.1 = k' := by rw [h1]; exact h2
          simp [bagSet, pyGet, h1, h2, h3]
      · by_cases h2 : kv.1 = k'
        · have h3 : ¬ k = k' := by
            intro h; exact h1 (h2.trans h.symm)
          have h4 : ¬ k' = k := fun h => h3 h.symm
          simp [bagSet, pyGet, h1, h2, h3, h4]
        · simp [bagSet, pyGet, h1, h2, ih]

/-! ### keystone_peers.py: KeystoneOperatorPeers -/

/-- Relation data key for the charm administrator password. -/
def CHARM_PASSWORD : String := "keystone_password"

/-- Relation data key under which the bootstrapped flag is stored. -/
def BOOTSTRAPPED : String := "keystone_bootstrapped"

def DEFAULT_DOMAIN_ID : String := "default_domain_id"

def ADMIN_DOMAIN_ID : String := "admin_domain_id"

def ADMIN_PROJECT_ID : String := "admin_project_id"

def ADMIN_USER : String := "admin_user"

def SERVICE_DOMAIN_ID : String := "service_domain_id"

def SERVICE_PROJECT_ID : String := "service_project_id"

/-- `json.dumps` applied to a Python boolean, the only payload
`set_bootstrapped` ever serializes. -/
def jsonDumpsBool (b : Bool) : String := if b then "true" else "false"

/-- `json.loads` restricted to the boolean JSON documents written by
`jsonDumpsBool`; anything else raises `JSONDecodeError` (the source comments
that such an error is intentionally not caught). -/
def jsonLoadsBool (s : String) : Except PyError Bool :=
  if s = "true" then .ok true
  else if s = "false" then .ok false
  else .error .jsonDecodeError

/-- Body of `KeystoneOperatorPeers.set_bootstrapped` (keystone_peers.py
lines 109-134).  In the `bootstrapped` branch the flag is stored as
`json.dumps(bootstrapped)` together with the six identifiers; in the other
branch the flag is stored as `json.dumps(False)` and the six identifier keys
are assigned the literal `None`. -/
def set_bootstrapped (bag : Bag) (bootstrapped : Bool)
    (default_domain_id admin_domain_id admin_project_id admin_user
     service_domain_id service_project_id : String) : Bag :=
  if bootstrapped then
    let d := bagSet bag BOOTSTRAPPED (some (jsonDumpsBool bootstrapped))
    let d := bagSet d DEFAULT_DOMAIN_ID (some default_domain_id)
    let d := bagSet d ADMIN_DOMAIN_ID (some admin_domain_id)
    let d := bagSet d ADMIN_PROJECT_ID (some admin_project_id)
    let d := bagSet d ADMIN_USER (some admin_user)
    let d := bagSet d SERVICE_DOMAIN_ID (some service_domain_id)
    bagSet d SERVICE_PROJECT_ID (some service_project_id)
  else
    let d := bagSet bag BOOTSTRAPPED (some (jsonDumpsBool bootstrapped))
    let d := bagSet d DEFAULT_DOMAIN_ID none
    let d := bagSet d ADMIN_DOMAIN_ID none
    let d := bagSet d ADMIN_PROJECT_ID none
    let d := bagSet d ADMIN_USER none
    let d := bagSet d SERVICE_DOMAIN_ID none
    bagSet d SERVICE_PROJECT_ID none

/-- `set_bootstrapped` declares seven parameters after `self`
(`bootstrapped` plus six identifier strings), none of which has a default
value, so a call must supply exactly seven positional or keyword arguments. -/
def setBootstrappedRequiredArity : Nat := 7

/-- A Python call of the bound method `peers.set_bootstrapped(...)`: the
interpreter checks the argument count against the seven required parameters
before the body runs, raising `TypeError` on a mismatch. -/
def callSetBootstrapped (bag : Bag) (args : List PyVal) : Except PyError Bag :=
  match args with
  | [b, a1, a2, a3, a4, a5, a6] =>
      .ok (set_bootstrapped bag b.truthy a1.asStr a2.asStr a3.asStr a4.asStr
            a5.asStr a6.asStr)
  | _ => .error .typeError

/-- `KeystoneOperatorPeers.is_bootstrapped` (keystone_peers.py lines 143-164):
`False` when there is no peer relation, `False` when the stored flag is absent
or empty, otherwise the result of `json.loads` on the stored string. -/
def is_bootstrapped (rel : Option Bag) : Except PyError Bool :=
  match rel with
  | none => .ok false
  | some bag =>
      match pyGet bag BOOTSTRAPPED with
      | none => .ok false
      | some bs => if bs = "" then .ok false else jsonLoadsBool bs

/-- Getter property `default_domain_id` on the peer application databag. -/
def get_default_domain_id (bag : Bag) : Option String := pyGet bag DEFAULT_DOMAIN_ID

/-- Getter property `admin_domain_id`. -/
def get_admin_domain_id (bag : Bag) : Option String := pyGet bag ADMIN_DOMAIN_ID

/-- Getter property `admin_project_id`. -/
def get_admin_project_id (bag : Bag) : Option String := pyGet bag ADMIN_PROJECT_ID

/-- Getter property `admin_user`. -/
def get_admin_user (bag : Bag) : Option String := pyGet bag ADMIN_USER

/-- Getter property `service_domain_id`. -/
def get_service_domain_id (bag : Bag) : Option String := pyGet bag SERVICE_DOMAIN_ID

/-- Getter property `service_project_id`. -/
def get_service_project_id (bag : Bag) : Option String := pyGet bag SERVICE_PROJECT_ID

/-! ### utils/manager.py: KeystoneManager resource reconciliation

Each `create_*` method is embedded as a pure function over the list of
resources currently held by the identity API, returning the resulting
resource, the new resource list, and the number of create calls issued.  A
fresh id for a created resource is supplied as an explicit argument. -/

structure Domain where
  id : String
  name : String
  description : String
  deriving Repr, DecidableEq

structure Project where
  id : String
  name : String
  description : String
  domain_id : String
  deriving Repr, DecidableEq

structure User where
  id : String
  name : String
  domain_id : Option String
  default_project_id : Option String
  deriving Repr, DecidableEq

structure Role where
  id : String
  name : String
  domain_id : Option String
  deriving Repr, DecidableEq

structure Region where
  id : String
  description : Option String
  deriving Repr, DecidableEq

structure Service where
  id : String
  name : String
  type : String
  description : String
  deriving Repr, DecidableEq

structure Endpoint where
  id : String
  service_id : String
  interface : String
  region : String
  url : String
  deriving Repr, DecidableEq

/-- Python `str.lower()`, modelled character-wise (structurally, so that it
evaluates; the names compared are ASCII). -/
def pyLower (s : String) : String := ⟨s.data.map Char.toLower⟩

/-- `KeystoneManager.get_domain`: first domain whose lowercased name equals
the lowercased requested name (manager.py lines 302-314). -/
def get_domain (domains : List Domain) (name : String) : Option Domain :=
  domains.find? (fun d => pyLower d.name == pyLower name)

/-- `KeystoneManager.create_domain` (manager.py lines 316-330). -/
def create_domain (env : List Domain) (name description : String)
    (may_exist : Bool) (newId : String) : Domain × List Domain × Nat :=
  if may_exist then
    match get_domain env name with
    | some d => (d, env, 0)
    | none =>
        let d : Domain := ⟨newId, name, description⟩
        (d, env ++ [d], 1)
  else
    let d : Domain := ⟨newId, name, description⟩
    (d, env ++ [d], 1)

/-- `api.projects.list(domain=domain)`: server-side filter on the owning
domain when one is supplied. -/
def projects_list (env : List Project) (domain : Option String) : List Project :=
  match domain with
  | none => env
  | some did => env.filter (fun p => p.domain_id == did)

/-- `KeystoneManager.create_project` (manager.py lines 332-348): scans the
projects of the parent domain for a case-insensitive name match. -/
def create_project (env : List Project) (name : String) (domain : String)
    (description : String) (may_exist : Bool) (newId : String) :
    Project × List Project × Nat :=
  if may_exist then
    match (projects_list env (some domain)).find?
        (fun p => pyLower p.name == pyLower name) with
    | some p => (p, env, 0)
    | none =>
        let p : Project := ⟨newId, name, description, domain⟩
        (p, env ++ [p], 1)
  else
    let p : Project := ⟨newId, name, description, domain⟩
    (p, env ++ [p], 1)

/-- `api.users.list(default_project=project, domain=domain)`: server-side
filters on the supplied scopes. -/
def users_list (env : List User) (project : Option String)
    (domain : Option String) : List User :=
  let l := match project with
    | none => env
    | some pid => env.filter (fun u => u.default_project_id == some pid)
  match domain with
  | none => l
  | some did => l.filter (fun u => u.domain_id == some did)

/-- `KeystoneManager.get_user` (manager.py lines 380-390): first listed user
whose lowercased name matches. -/
def get_user (env : List User) (name : String) (project : Option String)
    (domain : Option String) : Option User :=
  (users_list env project domain).find?
    (fun u => pyLower u.name == pyLower name)

/-- `KeystoneManager.create_user` (manager.py lines 360-378). -/
def create_user (env : List User) (name : String) (project : Option String)
    (domain : Option String) (may_exist : Bool) (newId : String) :
    User × List User × Nat :=
  if may_exist then
    match get_user env name project domain with
    | some u => (u, env, 0)
    | none =>
        let u : User := ⟨newId, name, domain, project⟩
        (u, env ++ [u], 1)
  else
    let u : User := ⟨newId, name, domain, project⟩
    (u, env ++ [u], 1)

/-- `api.roles.list(domain=domain)`: filtered on the domain when given. -/
def roles_list (env : List Role) (domain : Option String) : List Role :=
  match domain with
  | none => env
  | some did => env.filter (fun r => r.domain_id == some did)

/-- `KeystoneManager.get_role` (manager.py lines 409-418): note the name
comparison `role.name == name` is exact — unlike the other lookups it is not
lowercased. -/
def get_role (env : List Role) (name : String) (domain : Option String) :
    Option Role :=
  (roles_list env domain).find? (fun r => r.name == name)

/-- `KeystoneManager.create_role` (manager.py lines 392-407). -/
def create_role (env : List Role) (name : String) (domain : Option String)
    (may_exist : Bool) (newId : String) : Role × List Role × Nat :=
  if may_exist then
    match get_role env name domain with
    | some r => (r, env, 0)
    | none =>
        let r : Role := ⟨newId, name, domain⟩
        (r, env ++ [r], 1)
  else
    let r : Role := ⟨newId, name, domain⟩
    (r, env ++ [r], 1)

/-- `KeystoneManager.create_region` (manager.py lines 471-484): a region
matches when its id equals the requested name exactly; a created region is
given the requested name as its id. -/
def create_region (env : List Region) (name : String)
    (description : Option String) (may_exist : Bool) :
    Region × List Region × Nat :=
  if may_exist then
    match env.find? (fun r => r.id == name) with
    | some r => (r, env, 0)
    | none =>
        let r : Region := ⟨name, description⟩
        (r, env ++ [r], 1)
  else
    let r : Region := ⟨name, description⟩
    (r, env ++ [r], 1)

/-- `api.services.list(name=name, type=service_type)`: server-side exact
filter on name and type. -/
def services_list (env : List Service) (name : String) (type : String) :
    List Service :=
  env.filter (fun s => s.name == name && s.type == type)

/-- `KeystoneManager.create_service` (manager.py lines 486-506): the for loop
returns the first service of the filtered listing when it is non-empty. -/
def create_service (env : List Service) (name : String) (service_type : String)
    (description : String) (may_exist : Bool) (newId : String) :
    Service × List Service × Nat :=
  if may_exist then
    match services_list env name service_type with
    | s :: _ => (s, env, 0)
    | [] =>
        let s : Service := ⟨newId, name, service_type, description⟩
        (s, env ++ [s], 1)
  else
    let s : Service := ⟨newId, name, service_type, description⟩
    (s, env ++ [s], 1)

/-- `api.endpoints.list(service=service, interface=interface, region=region)`. -/
def endpoints_list (env : List Endpoint) (service interface region : String) :
    List Endpoint :=
  env.filter (fun e =>
    e.service_id == service && e.interface == interface && e.region == region)

/-- `api.endpoints.update(endpoint=endpoint, url=url)` over the environment. -/
def endpoint_update_url (env : List Endpoint) (epId : String) (url : String) :
    List Endpoint :=
  env.map (fun e => if e.id == epId then { e with url := url } else e)

/-- Result of a `create_endpoint` call, counting create and update calls. -/
structure EndpointCallResult where
  result : Endpoint
  env : List Endpoint
  createCalls : Nat
  updateCalls : Nat
  deriving Repr, DecidableEq

/-- `KeystoneManager.create_endpoint` (manager.py lines 508-540): with
`may_exist`, lists the endpoints of the same service, interface and region;
`assert len(endpoints) == 1` when any are found; updates the url when it
differs, otherwise returns the endpoint unchanged; creates only when none
are found. -/
def create_endpoint (env : List Endpoint)
    (service url interface region : String) (may_exist : Bool)
    (newId : String) : Except PyError EndpointCallResult :=
  if may_exist then
    match endpoints_list env service interface region with
    | [] =>
        let ep : Endpoint := ⟨newId, service, interface, region, url⟩
        .ok ⟨ep, env ++ [ep], 1, 0⟩
    | e :: rest =>
        if rest.isEmpty then
          if e.url != url then
            .ok ⟨{ e with url := url }, endpoint_update_url env e.id url, 0, 1⟩
          else
            .ok ⟨e, env, 0, 0⟩
        else .error .assertionError
  else
    let ep : Endpoint := ⟨newId, service, interface, region, url⟩
    .ok ⟨ep, env ++ [ep], 1, 0⟩

/-! ### identity_service.py: IdentityServiceProvides -/

/-- The required keys checked by `_on_identity_service_relation_changed`
(identity_service.py). -/
def REQUIRED_KEYS : List String :=
  ["service", "internal-url", "public-url", "admin-url", "region"]

/-- Python truthiness of a `dict.get` result: `None` and the empty string are
falsy, any other string is truthy. -/
def truthyOptStr : Option String → Bool
  | none => false
  | some s => !s.isEmpty

/-- `_on_identity_service_relation_changed`: reads each required key from the
remote application databag and emits `ready_identity_service_clients` exactly
when `all(values)` holds. -/
def relation_changed_emits_ready (remoteAppData : Bag) : Bool :=
  REQUIRED_KEYS.all (fun k => truthyOptStr (pyGet remoteAppData k))

/-! ### secrets/kubernetes.py: KubernetesSecretsDriver -/

/-- The base64 alphabet used by `base64.b64encode`. -/
def b64Alphabet : List Char :=
  "ABCDEFGHIJKLMNOPQRSTUVWXYZabcdefghijklmnopqrstuvwxyz0123456789+/".toList

def b64Char (n : Nat) : Char := b64Alphabet.getD n '='

/-- `base64.b64encode` on a byte string (bytes given as naturals below 256),
producing the padded base64 character sequence. -/
def b64encode : List Nat → List Char
  | [] => []
  | [a] => [b64Char (a / 4 % 64), b64Char (a % 4 * 16), '=', '=']
  | [a, b] =>
      [b64Char (a / 4 % 64), b64Char (a % 4 * 16 + b / 16 % 16),
       b64Char (b % 16 * 4), '=']
  | a :: b :: c :: rest =>
      b64Char (a / 4 % 64) :: b64Char (a % 4 * 16 + b / 16 % 16) ::
      b64Char (b % 16 * 4 + c / 64 % 4) :: b64Char (c % 64) :: b64encode rest

def b64encodeStr (bs : List Nat) : String := ⟨b64encode bs⟩

/-- A secret as held by `secrets.common.Secret`: a name and its data
dictionary of byte-string values. -/
structure PySecret where
  name : String
  data : List (String × List Nat)
  deriving Repr, DecidableEq

/-- The dictionary built inside `_encode_secret_data`: each value base64
encoded (kubernetes.py lines 42-46). -/
def encodeSecretItems (data : List (String × List Nat)) :
    List (String × String) :=
  data.map (fun kv => (kv.1, b64encodeStr kv.2))

/-- `KubernetesSecretsDriver._encode_secret_data` (kubernetes.py lines 37-46):
the loop fills the local `data` dictionary, but the function body ends without
a `return` statement, so the call evaluates to Python `None`. -/
def _encode_secret_data (secret : PySecret) :
    Option (List (String × String)) :=
  let _data := encodeSecretItems secret.data
  none

/-- The `V1Secret` body sent to the Kubernetes API. -/
structure V1SecretBody where
  name : String
  ns : String
  type : String
  data : Option (List (String × String))
  deriving Repr, DecidableEq

/-- Body built by `KubernetesSecretsDriver.create` (kubernetes.py lines
48-68): `data=self._encode_secret_data(secret)`. -/
def create_secret_body (ns : String) (secret : PySecret) : V1SecretBody :=
  ⟨secret.name, ns, "Opaque", _encode_secret_data secret⟩

/-- Body built by `KubernetesSecretsDriver.update` (kubernetes.py lines
81-99): also `data=self._encode_secret_data(secret)`. -/
def update_secret_body (ns : String) (secret : PySecret) : V1SecretBody :=
  ⟨secret.name, ns, "Opaque", _encode_secret_data secret⟩

/-! ### charm.py: secret names built in `_do_bootstrap` -/

/-- charm.py line 283: `Secret(name=f'\x7bself.app.name\x7d.fernet-keys', ...)`
— an f-string, interpolating the application name. -/
def fernet_secret_name (app : String) : String := app ++ ".fernet-keys"

/-- charm.py line 285: `Secret(name='f\x7bself.app.name\x7d.credential-keys', ...)`
— a plain string literal whose first character is `f`; the `f` prefix sits
inside the quotes, so no interpolation happens and the name is the literal
text. -/
def credential_secret_name (_app : String) : String :=
  "f\x7bself.app.name\x7d.credential-keys"

/-! ### charm.py / manager.py: bootstrap sequencing

The CLI steps of `KeystoneManager.setup_keystone` shell out via pebble; the
environment below records, for each command, whether it would exit cleanly
(`ops.pebble.ExecError` otherwise).  An outcome records the steps attempted,
the unit status writes, the final peer application databag, the names of the
Kubernetes secrets created, and any exception escaping the handler. -/

/-- Unit status values written by the modelled code. -/
inductive UStatus where
  | blocked (msg : String)
  | maintenance (msg : String)
  | active
  deriving Repr, DecidableEq

/-- The phases of the bootstrap sequence, in the order the code attempts
them. -/
inductive Step where
  | syncDatabase
  | fernetSetup
  | credentialSetup
  | bootstrapCmd
  | enableWsgi
  | restartKeystone
  | projectsUsers
  | createFernetSecret
  | createCredentialSecret
  deriving Repr, DecidableEq

/-- Success or failure of each `keystone-manage` CLI invocation. -/
structure CliEnv where
  sync_ok : Bool
  fernet_ok : Bool
  credential_ok : Bool
  bootstrap_ok : Bool
  deriving Repr, DecidableEq

/-- The `KeystoneException` messages raised by the four step wrappers
(manager.py lines 134-210). -/
inductive KsError where
  | dbSync
  | fernet
  | credential
  | bootstrap
  deriving Repr, DecidableEq

def KsError.message : KsError → String
  | .dbSync => "Database sync failed"
  | .fernet => "Fernet setup failed."
  | .credential => "Credential setup failed."
  | .bootstrap => "Bootstrap failed"

/-- `KeystoneManager.setup_keystone` (manager.py lines 102-114): inside the
sunbeam guard it runs `_sync_database`, `_fernet_setup`, `_credential_setup`
and `_bootstrap` in that order; each wrapper sets a maintenance status, runs
its command, and converts `ExecError` into `KeystoneException`, which the
guard does not swallow.  Returns the steps attempted, the status writes, and
the exception, if any. -/
def setup_keystone (env : CliEnv) :
    List Step × List UStatus × Option KsError :=
  let t := [Step.syncDatabase]
  let s := [UStatus.maintenance "Syncing database"]
  if !env.sync_ok then (t, s, some .dbSync)
  else
    let t := t ++ [Step.fernetSetup]
    let s := s ++ [UStatus.maintenance "Setting up fernet tokens"]
    if !env.fernet_ok then (t, s, some .fernet)
    else
      let t := t ++ [Step.credentialSetup]
      let s := s ++ [UStatus.maintenance "Setting up credentials"]
      if !env.credential_ok then (t, s, some .credential)
      else
        let t := t ++ [Step.bootstrapCmd]
        let s := s ++ [UStatus.maintenance "Bootstrapping Keystone"]
        if !env.bootstrap_ok then (t, s, some .bootstrap)
        else (t, s, none)

/-- The identifiers `charm.py` expects `setup_initial_projects_and_users` to
return. -/
structure ProjectInfo where
  default_domain_id : String
  admin_domain_id : String
  admin_project_id : String
  admin_user : String
  service_domain_id : String
  service_project_id : String
  deriving Repr, DecidableEq

/-- `KeystoneManager.setup_initial_projects_and_users` (manager.py lines
212-220) runs the account setup inside a guard and has no `return`
statement, so the call evaluates to Python `None`. -/
def setup_initial_projects_and_users_result : Option ProjectInfo := none

/-- The files the charm pulls out of the workload container at the end of the
bootstrap. -/
structure Container where
  fernetFiles : List (String × List Nat)
  credentialFiles : List (String × List Nat)
  deriving Repr, DecidableEq

/-- The charm-side state a triggering event sees. -/
structure CharmState where
  appName : String
  peersRel : Option Bag
  dbReady : Bool
  isLeader : Bool
  container : Option Container
  deriving Repr, DecidableEq

/-- Everything observable that a handler run produces. -/
structure Outcome where
  setupInvoked : Bool
  steps : List Step
  statuses : List UStatus
  peers : Option Bag
  secretsCreated : List String
  error : Option PyError
  deriving Repr, DecidableEq

/-- An outcome that leaves every tracked piece of state unchanged. -/
def noopOutcome (st : CharmState) : Outcome :=
  ⟨false, [], [], st.peersRel, [], none⟩

/-- `KeystoneOperatorCharm.charm_password` property (charm.py lines 177-180). -/
def charm_password_value : String := "abc123"

/-- `KeystoneOperatorCharm._do_bootstrap` (charm.py lines 226-302).

Branches in source order: return when already bootstrapped; blocked status
and return when the database is not ready; blocked status and return when the
unit is not the leader; plain return when the container is unavailable.
Otherwise configs are rendered and `setup_keystone` runs.  On
`KeystoneException` the handler calls `self.peers.set_bootstrapped(False)` —
one positional argument against seven required parameters, so the call raises
`TypeError`.  On success it enables wsgi, restarts keystone, runs
`setup_initial_projects_and_users` (which returns `None`), creates the two
Kubernetes secrets, sets `ActiveStatus`, and then evaluates
`project_info['default_domain_id']`, which subscripts `None` and raises
`TypeError` before `set_bootstrapped(True, ...)` can be called. -/
def _do_bootstrap (st : CharmState) (env : CliEnv) : Outcome :=
  match is_bootstrapped st.peersRel with
  | .error e => { noopOutcome st with error := some e }
  | .ok true => noopOutcome st
  | .ok false =>
    if !st.dbReady then
      { noopOutcome st with statuses := [UStatus.blocked "Waiting for database"] }
    else if !st.isLeader then
      { noopOutcome st with
          statuses :=
            [UStatus.blocked "Waiting for leader to bootstrap keystone"] }
    else
      match st.container with
      | none => noopOutcome st
      | some c =>
        match setup_keystone env with
        | (tr, sts, some _ksErr) =>
            match callSetBootstrapped ((st.peersRel).getD [])
                [PyVal.vbool false] with
            | .error e =>
                { setupInvoked := true, steps := tr, statuses := sts,
                  peers := st.peersRel, secretsCreated := [], error := some e }
            | .ok bag2 =>
                { setupInvoked := true, steps := tr, statuses := sts,
                  peers := some bag2, secretsCreated := [], error := none }
        | (tr, sts, none) =>
            let tr := tr ++ [Step.enableWsgi, Step.restartKeystone,
              Step.projectsUsers, Step.createFernetSecret,
              Step.createCredentialSecret]
            let sts := sts ++ [UStatus.maintenance "Starting Keystone"]
            let names := [fernet_secret_name st.appName,
              credential_secret_name st.appName]
            let _fernetData := c.fernetFiles
            let _credData := c.credentialFiles
            match setup_initial_projects_and_users_result with
            | none =>
                { setupInvoked := true, steps := tr,
                  statuses := sts ++ [UStatus.active], peers := st.peersRel,
                  secretsCreated := names, error := some .typeError }
            | some pi =>
                match callSetBootstrapped ((st.peersRel).getD [])
                    [PyVal.vbool true, PyVal.vstr pi.default_domain_id,
                     PyVal.vstr pi.admin_domain_id,
                     PyVal.vstr pi.admin_project_id, PyVal.vstr pi.admin_user,
                     PyVal.vstr pi.service_domain_id,
                     PyVal.vstr pi.service_project_id] with
                | .error e =>
                    { setupInvoked := true, steps := tr,
                      statuses := sts ++ [UStatus.active],
                      peers := st.peersRel, secretsCreated := names,
                      error := some e }
                | .ok bag2 =>
                    { setupInvoked := true, steps := tr,
                      statuses := sts ++ [UStatus.active], peers := some bag2,
                      secretsCreated := names, error := none }

/-- The triggering events observed by `KeystoneOperatorCharm`. -/
inductive Event where
  | databaseChanged (databases : List String)
  | pebbleReady
  | configChanged
  | peersCreated
  | peersJoined
  | peersChanged
  | updateStatus
  deriving Repr, DecidableEq

/-- Dispatch of one event through the charm's handlers (charm.py).  Only
peer-data writes, bootstrap steps, unit statuses, secrets and escaping
exceptions are tracked; config rendering and container layer updates touch no
shared state. -/
def handleEvent (ev : Event) (st : CharmState) (env : CliEnv) : Outcome :=
  match ev with
  | .databaseChanged databases =>
      if databases.isEmpty then
        noopOutcome st
      else
        _do_bootstrap { st with dbReady := true } env
  | .pebbleReady => _do_bootstrap st env
  | .configChanged =>
      match is_bootstrapped st.peersRel with
      | .error e => { noopOutcome st with error := some e }
      | .ok _ => noopOutcome st
  | .peersCreated =>
      if st.isLeader then
        match st.peersRel with
        | none => { noopOutcome st with error := some .attributeError }
        | some bag =>
            if truthyOptStr (pyGet bag CHARM_PASSWORD) then noopOutcome st
            else
              { noopOutcome st with
                  peers := some
                    (bagSet bag CHARM_PASSWORD (some charm_password_value)) }
      else noopOutcome st
  | .peersJoined => noopOutcome st
  | .peersChanged =>
      match is_bootstrapped st.peersRel with
      | .error e => { noopOutcome st with error := some e }
      | .ok _ => noopOutcome st
  | .updateStatus =>
      match is_bootstrapped st.peersRel with
      | .error e => { noopOutcome st with error := some e }
      | .ok true => { noopOutcome st with statuses := [UStatus.active] }
      | .ok false => noopOutcome st

/-! ## Helper lemmas -/

theorem find?_append_none {α} (p : α → Bool) (l1 l2 : List α)
    (h : l1.find? p = none) : (l1 ++ l2).find? p = l2.find? p := by
  induction l1 with
  | nil => rfl
  | cons a t ih =>
      cases hp : p a with
      | true => simp only [List.find?_cons, hp] at h; cases h
      | false =>
          rw [List.cons_append]
          simp only [List.find?_cons, hp] at h ⊢
          exact ih h

/-! ## Claims -/

/-- C7: after the leader stores `bootstrapped=True` together with the six
identifiers via `set_bootstrapped`, `is_bootstrapped` reads back `True` and
each getter property returns exactly the stored value; the flag sits under
the key `keystone_bootstrapped` as the JSON boolean `true`, and when that key
is absent or holds the empty string `is_bootstrapped` returns `False`. -/
theorem C7_peer_bootstrap_roundtrip (bag : Bag)
    (ddi adi apr au sdi spi : String) :
    (is_bootstrapped (some (set_bootstrapped bag true ddi adi apr au sdi spi))
        = .ok true
      ∧ pyGet (set_bootstrapped bag true ddi adi apr au sdi spi) BOOTSTRAPPED
          = some "true"
      ∧ jsonDumpsBool true = "true"
      ∧ get_default_domain_id (set_bootstrapped bag true ddi adi apr au sdi spi)
          = some ddi
      ∧ get_admin_domain_id (set_bootstrapped bag true ddi adi apr au sdi spi)
          = some adi
      ∧ get_admin_project_id (set_bootstrapped bag true ddi adi apr au sdi spi)
          = some apr
      ∧ get_admin_user (set_bootstrapped bag true ddi adi apr au sdi spi)
          = some au
      ∧ get_service_domain_id (set_bootstrapped bag true ddi adi apr au sdi spi)
          = some sdi
      ∧ get_service_project_id (set_bootstrapped bag true ddi adi apr au sdi spi)
          = some spi)
    ∧ (pyGet bag BOOTSTRAPPED = none → is_bootstrapped (some bag) = .ok false)
    ∧ (pyGet bag BOOTSTRAPPED = some "" →
        is_bootstrapped (some bag) = .ok false) := by
  refine ⟨⟨?_, ?_, rfl, ?_, ?_, ?_, ?_, ?_, ?_⟩, ?_, ?_⟩
  all_goals
    simp [set_bootstrapped, is_bootstrapped, jsonDumpsBool, jsonLoadsBool,
      pyGet_bagSet, get_default_domain_id, get_admin_domain_id,
      get_admin_project_id, get_admin_user, get_service_domain_id,
      get_service_project_id, BOOTSTRAPPED, DEFAULT_DOMAIN_ID,
      ADMIN_DOMAIN_ID, ADMIN_PROJECT_ID, ADMIN_USER, SERVICE_DOMAIN_ID,
      SERVICE_PROJECT_ID]
  · intro h
    rw [h]
  · intro h
    rw [h]
    rfl

/-- C7 witness: a concrete round trip through an empty databag. -/
theorem C7_peer_bootstrap_roundtrip_witness :
    is_bootstrapped
        (some (set_bootstrapped [] true "d1" "d2" "p1" "u1" "d3" "p2"))
      = .ok true
    ∧ is_bootstrapped (some ([] : Bag)) = .ok false :=
  ⟨(C7_peer_bootstrap_roundtrip [] "d1" "d2" "p1" "u1" "d3" "p2").1.1,
   (C7_peer_bootstrap_roundtrip [] "d1" "d2" "p1" "u1" "d3" "p2").2.1 rfl⟩

/-- C5: the identity-service provider emits `ready_identity_service_clients`
on relation-changed exactly when each of `service`, `internal-url`,
`public-url`, `admin-url`, `region` is present in the remote application data
and non-empty. -/
theorem C5_ready_gating (remoteAppData : Bag) :
    relation_changed_emits_ready remoteAppData = true ↔
      ∀ k ∈ REQUIRED_KEYS,
        ∃ v, pyGet remoteAppData k = some v ∧ v ≠ "" := by
  unfold relation_changed_emits_ready
  rw [List.all_eq_true]
  constructor
  · intro h k hk
    have hv := h k hk
    cases hg : pyGet remoteAppData k with
    | none => rw [hg] at hv; simp [truthyOptStr] at hv
    | some v =>
        rw [hg] at hv
        refine ⟨v, rfl, ?_⟩
        simp only [truthyOptStr, Bool.not_eq_true'] at hv
        intro hcon
        rw [hcon] at hv
        exact absurd hv (by decide)
  · intro h k hk
    obtain ⟨v, hg, hv⟩ := h k hk
    rw [hg]
    simp only [truthyOptStr, Bool.not_eq_true']
    exact Bool.eq_false_iff.mpr (fun he => hv ((String.isEmpty_iff v).mp he))

/-- C5 witness: a complete databag is accepted. -/
theorem C5_ready_gating_witness :
    relation_changed_emits_ready
      [("service", some "keystone"), ("internal-url", some "http://i/v3"),
       ("public-url", some "http://p/v3"), ("admin-url", some "http://a/v3"),
       ("region", some "RegionOne")] = true :=
  (C5_ready_gating _).mpr (by decide)

/-- C10: `_encode_secret_data` builds the base64 dictionary but never returns
it, so it evaluates to `None` for every secret with non-empty data, and both
the create and the update driver calls send a `V1Secret` whose `data` field
is `None`. -/
theorem C10_encode_secret_data_returns_none (ns : String) (secret : PySecret)
    (hne : secret.data ≠ []) :
    _encode_secret_data secret = none
      ∧ (create_secret_body ns secret).data = none
      ∧ (update_secret_body ns secret).data = none :=
  ⟨rfl, rfl, rfl⟩

/-- C10 witness: a concrete one-entry secret. -/
theorem C10_encode_secret_data_returns_none_witness :
    (⟨"keystone.fernet-keys", [("0", [107, 101, 121])]⟩ : PySecret).data ≠ []
      ∧ _encode_secret_data ⟨"keystone.fernet-keys", [("0", [107, 101, 121])]⟩
          = none :=
  ⟨by decide,
   (C10_encode_secret_data_returns_none "m"
     ⟨"keystone.fernet-keys", [("0", [107, 101, 121])]⟩ (by decide)).1⟩

/-- C8: the fernet secret is named from the application
(`<app>.fernet-keys`), but the credential secret's name is the literal text
`f\x7bself.app.name\x7d.credential-keys` — charm.py line 285 places the
f-string prefix inside the quotes — so it is not derived from the application
name as the claim states. -/
theorem C8_secret_names :
    fernet_secret_name "keystone" = "keystone.fernet-keys"
      ∧ credential_secret_name "keystone"
          = "f\x7bself.app.name\x7d.credential-keys"
      ∧ credential_secret_name "keystone" ≠ "keystone.credential-keys" := by
  refine ⟨rfl, rfl, ?_⟩
  decide

/-- A leader unit with the database ready, an available container and an
empty peer databag, as seen when the bootstrap first runs. -/
def readyState : CharmState :=
  { appName := "keystone", peersRel := some [], dbReady := true,
    isLeader := true,
    container := some ⟨[("0", [107])], [("0", [99])]⟩ }

/-- C1: when the fernet step raises `KeystoneException`, `_do_bootstrap`
stops before project/user setup and secret creation and writes nothing to
the peer databag — but the `except` handler's call
`self.peers.set_bootstrapped(False)` passes one positional argument to a
method with seven required parameters, so it raises `TypeError` instead of
resetting the flag: the reset the claim (and the spec) describe never
happens. -/
theorem C1_failure_handler_typeerror :
    (_do_bootstrap readyState ⟨true, false, true, true⟩).error
        = some PyError.typeError
      ∧ (_do_bootstrap readyState ⟨true, false, true, true⟩).peers = some []
      ∧ Step.projectsUsers ∉
          (_do_bootstrap readyState ⟨true, false, true, true⟩).steps
      ∧ Step.createFernetSecret ∉
          (_do_bootstrap readyState ⟨true, false, true, true⟩).steps
      ∧ (_do_bootstrap readyState ⟨true, false, true, true⟩).secretsCreated = []
      ∧ callSetBootstrapped [] [PyVal.vbool false] = .error PyError.typeError
      ∧ setBootstrappedRequiredArity = 7 :=
  ⟨rfl, rfl, by decide, by decide, rfl, rfl, rfl⟩

/-- A state whose only failing precondition is the unavailable container. -/
def containerlessState : CharmState :=
  { appName := "keystone", peersRel := some [], dbReady := true,
    isLeader := true, container := none }

/-- C6 counterexample: with the database ready and the unit the leader but
the workload container unavailable, `_do_bootstrap` returns without
executing a step, without raising — and without setting any status, contrary
to the claim that every failed precondition surfaces a blocked or
maintenance status. -/
theorem C6_container_branch_sets_no_status :
    (_do_bootstrap containerlessState ⟨true, true, true, true⟩).statuses = []
      ∧ (_do_bootstrap containerlessState ⟨true, true, true, true⟩).steps = []
      ∧ (_do_bootstrap containerlessState ⟨true, true, true, true⟩).error
          = none := by
  decide

/-- C6 (amended): when `_do_bootstrap` is entered not yet bootstrapped and a
precondition fails, no bootstrap step executes and no exception is raised;
the database-not-ready and not-leader branches set a blocked status, while
the container-unavailable branch merely logs and returns without touching
the status. -/
theorem C6_precondition_branches (st : CharmState) (env : CliEnv)
    (hb : is_bootstrapped st.peersRel = .ok false) :
    (st.dbReady = false →
        _do_bootstrap st env
          = { noopOutcome st with
                statuses := [UStatus.blocked "Waiting for database"] })
      ∧ (st.dbReady = true → st.isLeader = false →
          _do_bootstrap st env
            = { noopOutcome st with
                  statuses := [UStatus.blocked
                    "Waiting for leader to bootstrap keystone"] })
      ∧ (st.dbReady = true → st.isLeader = true → st.container = none →
          _do_bootstrap st env = noopOutcome st) := by
  refine ⟨?_, ?_, ?_⟩
  · intro h1
    unfold _do_bootstrap
    rw [hb]
    simp [h1]
  · intro h1 h2
    unfold _do_bootstrap
    rw [hb]
    simp [h1, h2]
  · intro h1 h2 h3
    unfold _do_bootstrap
    rw [hb]
    simp [h1, h2, h3]

/-- A follower unit with the database ready. -/
def followerState : CharmState :=
  { appName := "keystone", peersRel := some [], dbReady := true,
    isLeader := false, container := none }

/-- C6 witness: the not-leader branch on a concrete state. -/
theorem C6_precondition_branches_witness :
    _do_bootstrap followerState ⟨true, true, true, true⟩
      = { noopOutcome followerState with
            statuses := [UStatus.blocked
              "Waiting for leader to bootstrap keystone"] } :=
  (C6_precondition_branches followerState ⟨true, true, true, true⟩ rfl).2.1
    rfl rfl

theorem setup_keystone_no_late_steps (env : CliEnv) :
    Step.projectsUsers ∉ (setup_keystone env).1 := by
  obtain ⟨s, f, c, b⟩ := env
  cases s <;> cases f <;> cases c <;> cases b <;> decide

theorem setup_keystone_success_shape (env : CliEnv) (tr : List Step)
    (sts : List UStatus) (h : setup_keystone env = (tr, sts, none)) :
    env = ⟨true, true, true, true⟩
      ∧ tr = [Step.syncDatabase, Step.fernetSetup, Step.credentialSetup,
          Step.bootstrapCmd] := by
  obtain ⟨s, f, c, b⟩ := env
  cases s <;> cases f <;> cases c <;> cases b <;> simp [setup_keystone] at h
  exact ⟨rfl, h.1.symm⟩

theorem do_bootstrap_steps (st : CharmState) (env : CliEnv) :
    (_do_bootstrap st env).steps = []
      ∨ ((_do_bootstrap st env).steps = (setup_keystone env).1
          ∧ (setup_keystone env).2.2 ≠ none)
      ∨ ((_do_bootstrap st env).steps
            = (setup_keystone env).1 ++ [Step.enableWsgi, Step.restartKeystone,
                Step.projectsUsers, Step.createFernetSecret,
                Step.createCredentialSecret]
          ∧ (setup_keystone env).2.2 = none) := by
  unfold _do_bootstrap
  split
  · left; rfl
  · left; rfl
  · split
    · left; rfl
    · split
      · left; rfl
      · split
        · left; rfl
        · split
          case _ tr sts e heq =>
              split
              · right; left; rw [heq]; exact ⟨rfl, by simp⟩
              · right; left; rw [heq]; exact ⟨rfl, by simp⟩
          case _ tr sts heq =>
              split
              · right; right; rw [heq]; exact ⟨rfl, rfl⟩
              · split
                · right; right; rw [heq]; exact ⟨rfl, rfl⟩
                · right; right; rw [heq]; exact ⟨rfl, rfl⟩

/-- C3: the credential-setup step is only ever attempted after the fernet
step (itself after a successful database sync) has completed without
raising, and `setup_initial_projects_and_users` only ever runs after the
whole of `setup_keystone` — which ends with `keystone-manage bootstrap` —
has completed without raising. -/
theorem C3_bootstrap_ordering (st : CharmState) (env : CliEnv) :
    (Step.credentialSetup ∈ (setup_keystone env).1 →
        env.sync_ok = true ∧ env.fernet_ok = true
          ∧ Step.fernetSetup ∈ (setup_keystone env).1)
      ∧ (Step.projectsUsers ∈ (_do_bootstrap st env).steps →
          (setup_keystone env).2.2 = none ∧ env.bootstrap_ok = true
            ∧ Step.bootstrapCmd ∈ (setup_keystone env).1) := by
  constructor
  · obtain ⟨s, f, c, b⟩ := env
    cases s <;> cases f <;> cases c <;> cases b <;> decide
  · intro h
    rcases do_bootstrap_steps st env with hs | ⟨hs, hne⟩ | ⟨hs, hnone⟩
    · rw [hs] at h; cases h
    · rw [hs] at h
      exact absurd h (setup_keystone_no_late_steps env)
    · have hsk : setup_keystone env
          = ((setup_keystone env).1, (setup_keystone env).2.1, none) := by
        rw [← hnone]
      obtain ⟨henv, htr⟩ := setup_keystone_success_shape env
        (setup_keystone env).1 (setup_keystone env).2.1 hsk
      refine ⟨hnone, ?_, ?_⟩
      · rw [henv]
      · rw [htr]; decide

/-- C3 witness: with every CLI command succeeding on a ready leader, the
credential step is attempted and the ordering facts are realized. -/
theorem C3_bootstrap_ordering_witness :
    (⟨true, true, true, true⟩ : CliEnv).sync_ok = true
      ∧ (⟨true, true, true, true⟩ : CliEnv).fernet_ok = true
      ∧ Step.fernetSetup ∈ (setup_keystone ⟨true, true, true, true⟩).1 :=
  (C3_bootstrap_ordering readyState ⟨true, true, true, true⟩).1 (by decide)

theorem do_bootstrap_nonleader (st : CharmState) (env : CliEnv)
    (h : st.isLeader = false) :
    (_do_bootstrap st env).setupInvoked = false
      ∧ (_do_bootstrap st env).peers = st.peersRel
      ∧ (_do_bootstrap st env).steps = [] := by
  unfold _do_bootstrap
  split
  · exact ⟨rfl, rfl, rfl⟩
  · exact ⟨rfl, rfl, rfl⟩
  · by_cases hd : st.dbReady
    · simp [hd, h, noopOutcome]
    · simp [hd, noopOutcome]

/-- C4: on a unit that is not the leader, no triggering event ever invokes
the bootstrap sequence (`setup_keystone` and what follows it in
`_do_bootstrap`), and the peer relation application data is never written by
that unit. -/
theorem C4_nonleader_never_bootstraps (ev : Event) (st : CharmState)
    (env : CliEnv) (h : st.isLeader = false) :
    (handleEvent ev st env).setupInvoked = false
      ∧ (handleEvent ev st env).peers = st.peersRel
      ∧ (handleEvent ev st env).steps = [] := by
  cases ev with
  | databaseChanged databases =>
      by_cases hd : databases.isEmpty
      · simp [handleEvent, hd, noopOutcome]
      · have hb := do_bootstrap_nonleader { st with dbReady := true } env h
        simpa [handleEvent, hd] using hb
  | pebbleReady => exact do_bootstrap_nonleader st env h
  | configChanged =>
      cases hbs : is_bootstrapped st.peersRel with
      | error e => simp [handleEvent, hbs, noopOutcome]
      | ok b => simp [handleEvent, hbs, noopOutcome]
  | peersCreated => simp [handleEvent, h, noopOutcome]
  | peersJoined => exact ⟨rfl, rfl, rfl⟩
  | peersChanged =>
      cases hbs : is_bootstrapped st.peersRel with
      | error e => simp [handleEvent, hbs, noopOutcome]
      | ok b => simp [handleEvent, hbs, noopOutcome]
  | updateStatus =>
      cases hbs : is_bootstrapped st.peersRel with
      | error e => simp [handleEvent, hbs, noopOutcome]
      | ok b => cases b <;> simp [handleEvent, hbs, noopOutcome]

/-- C4 witness: a follower unit handling a pebble-ready event. -/
theorem C4_nonleader_never_bootstraps_witness :
    (handleEvent Event.pebbleReady followerState
        ⟨true, true, true, true⟩).setupInvoked = false
      ∧ (handleEvent Event.pebbleReady followerState
          ⟨true, true, true, true⟩).peers = followerState.peersRel
      ∧ (handleEvent Event.pebbleReady followerState
          ⟨true, true, true, true⟩).steps = [] :=
  C4_nonleader_never_bootstraps Event.pebbleReady followerState
    ⟨true, true, true, true⟩ rfl

/-- C9: with `may_exist=True`, an endpoint already existing for the given
service, interface and region means no create call: the endpoint is patched
to the requested url when its url differs and returned unchanged otherwise;
a create is issued only when no endpoint matches. -/
theorem C9_create_endpoint_get_or_patch (env : List Endpoint)
    (sid url interface region newId : String) :
    (endpoints_list env sid interface region = [] →
        create_endpoint env sid url interface region true newId
          = .ok ⟨⟨newId, sid, interface, region, url⟩,
              env ++ [⟨newId, sid, interface, region, url⟩], 1, 0⟩)
      ∧ ∀ e, endpoints_list env sid interface region = [e] →
          (e.url ≠ url →
            create_endpoint env sid url interface region true newId
              = .ok ⟨{ e with url := url }, endpoint_update_url env e.id url,
                  0, 1⟩)
          ∧ (e.url = url →
            create_endpoint env sid url interface region true newId
              = .ok ⟨e, env, 0, 0⟩) := by
  refine ⟨?_, ?_⟩
  · intro h
    simp [create_endpoint, h]
  · intro e h
    constructor
    · intro hne
      simp [create_endpoint, h, hne]
    · intro heq
      simp [create_endpoint, h, heq]

/-- C9 witness: one existing endpoint with a stale url is patched in place. -/
theorem C9_create_endpoint_get_or_patch_witness :
    create_endpoint [⟨"e1", "s1", "public", "RegionOne", "http://old/v3"⟩]
        "s1" "http://new/v3" "public" "RegionOne" true "e2"
      = .ok ⟨⟨"e1", "s1", "public", "RegionOne", "http://new/v3"⟩,
          [⟨"e1", "s1", "public", "RegionOne", "http://new/v3"⟩], 0, 1⟩ :=
  ((C9_create_endpoint_get_or_patch
      [⟨"e1", "s1", "public", "RegionOne", "http://old/v3"⟩]
      "s1" "http://new/v3" "public" "RegionOne" "e2").2
    ⟨"e1", "s1", "public", "RegionOne", "http://old/v3"⟩ (by decide)).1
    (by decide)

/-- C2 counterexample: a role named `Member` exists and `create_role` is
called for `member` with `may_exist=True`.  The names match
case-insensitively, yet `get_role` compares them with `==`, finds nothing,
and a create call is issued, adding a second role differing only in case. -/
theorem C2_role_lookup_is_case_sensitive :
    get_role [⟨"r1", "Member", none⟩] "member" none = none
      ∧ pyLower "Member" = pyLower "member"
      ∧ (create_role [⟨"r1", "Member", none⟩] "member" none true "r2").2.2 = 1
      ∧ (create_role [⟨"r1", "Member", none⟩] "member" none true "r2").2.1
          = [⟨"r1", "Member", none⟩, ⟨"r2", "member", none⟩] := by
  decide

theorem get_domain_after_create (domains : List Domain)
    (name description newId : String) (h : get_domain domains name = none) :
    get_domain (domains ++ [⟨newId, name, description⟩]) name
      = some ⟨newId, name, description⟩ := by
  unfold get_domain at h ⊢
  rw [find?_append_none _ _ _ h]
  simp [List.find?_cons]

theorem projects_list_append_one (projects : List Project) (p0 : Project)
    (did : String) (h : p0.domain_id = did) :
    projects_list (projects ++ [p0]) (some did)
      = projects_list projects (some did) ++ [p0] := by
  simp only [projects_list]
  rw [List.filter_append]
  simp [List.filter_cons, h]

theorem users_list_append_one (users : List User) (u0 : User)
    (project domain : Option String) (hp : u0.default_project_id = project)
    (hd : u0.domain_id = domain) :
    users_list (users ++ [u0]) project domain
      = users_list users project domain ++ [u0] := by
  unfold users_list
  cases project <;> cases domain <;>
    simp [List.filter_append, List.filter_cons, hp, hd]

theorem roles_list_append_one (roles : List Role) (r0 : Role)
    (domain : Option String) (hd : r0.domain_id = domain) :
    roles_list (roles ++ [r0]) domain = roles_list roles domain ++ [r0] := by
  unfold roles_list
  cases domain <;> simp [List.filter_append, List.filter_cons, hd]

theorem endpoints_list_update_url (env : List Endpoint)
    (epId url sid interface region : String) :
    endpoints_list (endpoint_update_url env epId url) sid interface region
      = (endpoints_list env sid interface region).map
          (fun e => if e.id == epId then { e with url := url } else e) := by
  unfold endpoints_list endpoint_update_url
  rw [List.filter_map]
  congr 1
  apply List.filter_congr
  intro e _
  by_cases hid : (e.id == epId) = true <;> simp [Function.comp, hid]

/-- C2 (amended): each get-or-create operation, called with
`may_exist=True` when a matching resource exists, returns that resource and
issues no create call — where the match is case-insensitive on the name for
domains, projects and users, exact on the name for roles, exact on the id
for regions, an exact API-side name-and-type filter for services, and on
service/interface/region for endpoints.  Consequently calling any of the
operations twice with the same input is a no-op on the second call and never
produces duplicates. -/
theorem C2_get_or_create_idempotent
    (domains : List Domain) (projects : List Project) (users : List User)
    (roles : List Role) (regions : List Region) (services : List Service)
    (endpoints : List Endpoint)
    (name description ty url sid interface region did newId newId2 : String)
    (project domain : Option String) :
    (∀ d, get_domain domains name = some d →
        create_domain domains name description true newId = (d, domains, 0))
    ∧ (∀ p, (projects_list projects (some did)).find?
          (fun q => pyLower q.name == pyLower name) = some p →
        create_project projects name did description true newId
          = (p, projects, 0))
    ∧ (∀ u, get_user users name project domain = some u →
        create_user users name project domain true newId = (u, users, 0))
    ∧ (∀ r, get_role roles name domain = some r →
        create_role roles name domain true newId = (r, roles, 0))
    ∧ (∀ r, regions.find? (fun q => q.id == name) = some r →
        create_region regions name (some description) true = (r, regions, 0))
    ∧ (∀ s rest, services_list services name ty = s :: rest →
        create_service services name ty description true newId
          = (s, services, 0))
    ∧ (create_domain (create_domain domains name description true newId).2.1
          name description true newId2
        = ((create_domain domains name description true newId).1,
           (create_domain domains name description true newId).2.1, 0))
    ∧ (create_project
          (create_project projects name did description true newId).2.1
          name did description true newId2
        = ((create_project projects name did description true newId).1,
           (create_project projects name did description true newId).2.1, 0))
    ∧ (create_user (create_user users name project domain true newId).2.1
          name project domain true newId2
        = ((create_user users name project domain true newId).1,
           (create_user users name project domain true newId).2.1, 0))
    ∧ (create_role (create_role roles name domain true newId).2.1
          name domain true newId2
        = ((create_role roles name domain true newId).1,
           (create_role roles name domain true newId).2.1, 0))
    ∧ (create_region (create_region regions name (some description) true).2.1
          name (some description) true
        = ((create_region regions name (some description) true).1,
           (create_region regions name (some description) true).2.1, 0))
    ∧ (create_service
          (create_service services name ty description true newId).2.1
          name ty description true newId2
        = ((create_service services name ty description true newId).1,
           (create_service services name ty description true newId).2.1, 0))
    ∧ (∀ res,
        create_endpoint endpoints sid url interface region true newId
            = .ok res →
        create_endpoint res.env sid url interface region true newId2
          = .ok ⟨res.result, res.env, 0, 0⟩) := by
  refine ⟨?_, ?_, ?_, ?_, ?_, ?_, ?_, ?_, ?_, ?_, ?_, ?_, ?_⟩
  · intro d h; simp [create_domain, h]
  · intro p h; simp [create_project, h]
  · intro u h; simp [create_user, h]
  · intro r h; simp [create_role, h]
  · intro r h; simp [create_region, h]
  · intro s rest h; simp [create_service, h]
  · cases hfind : get_domain domains name with
    | some d => simp [create_domain, hfind]
    | none =>
        have h2 := get_domain_after_create domains name description newId hfind
        simp [create_domain, hfind, h2]
  · cases hfind : (projects_list projects (some did)).find?
        (fun q => pyLower q.name == pyLower name) with
    | some p => simp [create_project, hfind]
    | none =>
        have h2 : (projects_list
              (projects ++ [⟨newId, name, description, did⟩])
              (some did)).find?
            (fun q => pyLower q.name == pyLower name)
            = some ⟨newId, name, description, did⟩ := by
          rw [projects_list_append_one projects _ did rfl,
            find?_append_none _ _ _ hfind]
          simp [List.find?_cons]
        simp [create_project, hfind, h2]
  · cases hfind : get_user users name project domain with
    | some u => simp [create_user, hfind]
    | none =>
        have h2 : get_user (users ++ [⟨newId, name, domain, project⟩])
            name project domain = some ⟨newId, name, domain, project⟩ := by
          unfold get_user at hfind ⊢
          rw [users_list_append_one users _ project domain rfl rfl,
            find?_append_none _ _ _ hfind]
          simp [List.find?_cons]
        simp [create_user, hfind, h2]
  · cases hfind : get_role roles name domain with
    | some r => simp [create_role, hfind]
    | none =>
        have h2 : get_role (roles ++ [⟨newId, name, domain⟩]) name domain
            = some ⟨newId, name, domain⟩ := by
          unfold get_role at hfind ⊢
          rw [roles_list_append_one roles _ domain rfl,
            find?_append_none _ _ _ hfind]
          simp [List.find?_cons]
        simp [create_role, hfind, h2]
  · cases hfind : regions.find? (fun q => q.id == name) with
    | some r => simp [create_region, hfind]
    | none =>
        have h2 : (regions ++ ([⟨name, some description⟩] : List Region)).find?
            (fun q => q.id == name)
            = some (⟨name, some description⟩ : Region) := by
          rw [find?_append_none _ _ _ hfind]
          simp [List.find?_cons]
        simp [create_region, hfind, h2]
  · cases hfind : services_list services name ty with
    | cons s rest => simp [create_service, hfind]
    | nil =>
        have h2 : services_list (services ++ [⟨newId, name, ty, description⟩])
            name ty = [⟨newId, name, ty, description⟩] := by
          unfold services_list at hfind ⊢
          rw [List.filter_append, hfind]
          simp [List.filter_cons]
        simp [create_service, hfind, h2]
  · intro res hres
    cases hl : endpoints_list endpoints sid interface region with
    | nil =>
        simp only [create_endpoint, hl, if_true] at hres
        have hres2 : res = ⟨⟨newId, sid, interface, region, url⟩,
            endpoints ++ [⟨newId, sid, interface, region, url⟩], 1, 0⟩ := by
          cases hres
          rfl
        have h2 : endpoints_list
            (endpoints ++ [⟨newId, sid, interface, region, url⟩])
            sid interface region = [⟨newId, sid, interface, region, url⟩] := by
          unfold endpoints_list at hl ⊢
          rw [List.filter_append, hl]
          simp [List.filter_cons]
        rw [hres2]
        simp [create_endpoint, h2]
    | cons e rest =>
        cases rest with
        | cons e2 rest2 => simp [create_endpoint, hl] at hres
        | nil =>
            by_cases hu : (e.url != url) = true
            · simp only [create_endpoint, hl, List.isEmpty_nil, if_true,
                hu] at hres
              have hres2 : res = ⟨{ e with url := url },
                  endpoint_update_url endpoints e.id url, 0, 1⟩ := by
                cases hres
                rfl
              have h2 : endpoints_list (endpoint_update_url endpoints e.id url)
                  sid interface region = [{ e with url := url }] := by
                rw [endpoints_list_update_url, hl]
                simp
              rw [hres2]
              simp [create_endpoint, h2]
            · simp only [create_endpoint, hl, List.isEmpty_nil, if_true,
                hu] at hres
              have hres2 : res = ⟨e, endpoints, 0, 0⟩ := by
                cases hres
                rfl
              rw [hres2]
              simp only [Bool.not_eq_true] at hu
              simp [create_endpoint, hl, hu]

/-- C2 witness: creating the admin domain when it already exists under a
differently-cased name returns the existing domain with no create call. -/
theorem C2_get_or_create_idempotent_witness :
    create_domain [⟨"d1", "Admin_Domain", "Created by Juju"⟩] "admin_domain"
        "Created by Juju" true "d2"
      = (⟨"d1", "Admin_Domain", "Created by Juju"⟩,
         [⟨"d1", "Admin_Domain", "Created by Juju"⟩], 0) :=
  (C2_get_or_create_idempotent [⟨"d1", "Admin_Domain", "Created by Juju"⟩]
      [] [] [] [] [] [] "admin_domain" "Created by Juju" "" "" "" "" "" ""
      "d2" "x" none none).1
    ⟨"d1", "Admin_Domain", "Created by Juju"⟩ (by decide)

end Keystone
